import Mathlib

/-!
Shallow embedding of `j12dump.c` (serial transport layer and protocol
decoder for a foot-controller diagnostic monitor), together with proofs
about the embedded definitions.

Modelling conventions:
* the OS `read(2)` / `write(2)` syscalls are abstracted by an oracle list
  of per-call outcomes; the loops of `SerialReceiveBuffer` and
  `SerialSendBuffer` consume one oracle entry per iteration and return
  `none` when the oracle is exhausted while the C loop would keep running;
* `cc_t` fields (`VMIN`/`VTIME`) are 8-bit, modelled as `Nat % 256`;
* `tcflag_t` is 32-bit unsigned, modelled as `Nat` masked to 32 bits;
* an out-of-bounds array store (undefined behavior in C) is modelled as
  `none`.
-/

namespace J12dump

/-- SERIAL_OK, j12dump.c line 11. -/
def SERIAL_OK : Int := 0

/-- SERIAL_ERR, j12dump.c line 12. -/
def SERIAL_ERR : Int := -1

/-- SERIAL_ERR_OPEN, j12dump.c line 13. -/
def SERIAL_ERR_OPEN : Int := -2

/-- SERIAL_ERR_READ, j12dump.c line 14. -/
def SERIAL_ERR_READ : Int := -3

/-- SERIAL_ERR_WRITE, j12dump.c line 15. -/
def SERIAL_ERR_WRITE : Int := -4

/-- SERIAL_ERR_INIT, j12dump.c line 16. -/
def SERIAL_ERR_INIT : Int := -5

/-- SERIAL_ERR_TIMEOUT, j12dump.c line 17. -/
def SERIAL_ERR_TIMEOUT : Int := -6

/-- The two `c_cc` fields written by `SerialSetTimeout`: `VMIN` and `VTIME`.
Both are of C type `cc_t` (unsigned 8-bit). -/
structure CCState where
  vmin : Nat
  vtime : Nat
  deriving DecidableEq

/-- `SerialSetTimeout` (j12dump.c lines 67-82), restricted to its effect on
`settings.c_cc`: for `ms < 0` both `VMIN` and `VTIME` are 0 (non-blocking);
otherwise `VMIN = (ms) ? 0 : 1` and `VTIME = (ms + 99) / 100` (C `int`
division, then stored into an 8-bit `cc_t`, hence `% 256`).
The trailing `ioctl(TCSETS2)` is not modelled (its failure only changes the
return code, which no caller in the program inspects). -/
def SerialSetTimeout (ms : Int) : CCState :=
  if ms < 0 then
    ⟨0, 0⟩
  else
    ⟨if ms = 0 then 1 else 0, ((ms + 99) / 100).toNat % 256⟩

/-- Outcome of one driver-level `read(2)` call, as seen by the loop in
`SerialReceiveBuffer`:
* `chunk bs` — the call returned `bs.length` bytes with contents `bs`
  (`chunk []` is a zero-byte return, the C branch `received == 0`);
* `eintr` — the call returned −1 with `errno == EINTR`;
* `fail` — the call returned −1 with any other `errno`. -/
inductive ReadEv where
  | chunk (bs : List Nat)
  | eintr
  | fail
  deriving DecidableEq

/-- Result of `SerialReceiveBuffer`: the C return value, the value stored
through the in/out parameter `*len` on return, and the bytes written into
the caller's buffer, in order. -/
structure RecvResult where
  ret : Int
  lenOut : Nat
  collected : List Nat
  deriving DecidableEq

/-- The `while (*len > 0)` loop of `SerialReceiveBuffer` (j12dump.c lines
200-225). Arguments: remaining `*len`, bytes accumulated so far (`length`
in the C code equals `acc.length`). A `read` never returns more bytes than
requested, hence the `take`. `none` means the oracle ran out while the loop
would iterate again. -/
def recvLoop (timeout : Int) : List ReadEv → Nat → List Nat → Option RecvResult
  | _, 0, acc => some ⟨SERIAL_OK, acc.length, acc⟩
  | [], _ + 1, _ => none
  | ReadEv.chunk bs :: rest, rem + 1, acc =>
      let c := bs.take (rem + 1)
      if c.isEmpty then
        some ⟨if timeout < 0 then SERIAL_OK else SERIAL_ERR_TIMEOUT, acc.length, acc⟩
      else
        recvLoop timeout rest (rem + 1 - c.length) (acc ++ c)
  | ReadEv.eintr :: rest, rem + 1, acc => recvLoop timeout rest (rem + 1) acc
  | ReadEv.fail :: _, _ + 1, acc => some ⟨SERIAL_ERR_READ, acc.length, acc⟩

/-- `SerialReceiveBuffer` (j12dump.c lines 191-226). `fdOpen` is `fd >= 0`;
`len` is the value of `*len` at entry. With the port closed the function
returns `SERIAL_ERR_READ` before touching `*len` or issuing any syscall, so
`lenOut = len` and the oracle is never consulted. (With the port open the C
code first calls `SerialSetTimeout timeout`, whose `c_cc` effect is modelled
separately.) -/
def SerialReceiveBuffer (fdOpen : Bool) (len : Nat) (timeout : Int)
    (evs : List ReadEv) : Option RecvResult :=
  if fdOpen then recvLoop timeout evs len [] else some ⟨SERIAL_ERR_READ, len, []⟩

/-- Outcome of one driver-level `write(2)` call, as seen by the loop in
`SerialSendBuffer`: `wrote n` is a return of `n` bytes written (a partial
write is valid), `eintr` a −1 with `errno == EINTR`, `fail` a −1 with any
other `errno`. -/
inductive WriteEv where
  | wrote (n : Nat)
  | eintr
  | fail
  deriving DecidableEq

/-- The `while (len > 0)` loop of `SerialSendBuffer` (j12dump.c lines
173-181). Arguments: remaining `len`, bytes sent so far. `write` never
reports more than requested, hence the `min`. Result: (return code, total
bytes written). `none` means the oracle ran out mid-loop. -/
def sendLoop : List WriteEv → Nat → Nat → Option (Int × Nat)
  | _, 0, sent => some (SERIAL_OK, sent)
  | [], _ + 1, _ => none
  | WriteEv.wrote n :: rest, rem + 1, sent =>
      let w := min n (rem + 1)
      sendLoop rest (rem + 1 - w) (sent + w)
  | WriteEv.eintr :: rest, rem + 1, sent => sendLoop rest (rem + 1) sent
  | WriteEv.fail :: _, _ + 1, sent => some (SERIAL_ERR_WRITE, sent)

/-- `SerialSendBuffer` (j12dump.c lines 167-184): closed port rejected with
`SERIAL_ERR_WRITE` before any syscall, otherwise the write loop runs. -/
def SerialSendBuffer (fdOpen : Bool) (len : Nat) (evs : List WriteEv) :
    Option (Int × Nat) :=
  if fdOpen then sendLoop evs len 0 else some (SERIAL_ERR_WRITE, 0)

/-- `SerialFlush` (j12dump.c lines 49-56): (return code, number of OS calls
issued). Closed port: `SERIAL_ERR`, no syscall; open: one `tcflush`. -/
def SerialFlush (fdOpen : Bool) : Int × Nat :=
  if fdOpen then (SERIAL_OK, 1) else (SERIAL_ERR, 0)

/-- `SerialDrain` (j12dump.c lines 58-65): (return code, number of OS calls
issued). Closed port: `SERIAL_ERR`, no syscall; open: one `tcdrain`. -/
def SerialDrain (fdOpen : Bool) : Int × Nat :=
  if fdOpen then (SERIAL_OK, 1) else (SERIAL_ERR, 0)

/-! Linux `asm/termbits.h` constants used by `SerialInit`. -/

def CLOCAL : Nat := 0x0800

def CREAD : Nat := 0x0080

def CS5 : Nat := 0x0000

def CS6 : Nat := 0x0010

def CS7 : Nat := 0x0020

def CS8 : Nat := 0x0030

def PARENB : Nat := 0x0100

def PARODD : Nat := 0x0200

def CSTOPB : Nat := 0x0040

def CBAUD : Nat := 0x100F

def BOTHER : Nat := 0x1000

def B300 : Nat := 0x0007

def B2400 : Nat := 0x000B

def B4800 : Nat := 0x000C

def B9600 : Nat := 0x000D

def B19200 : Nat := 0x000E

def B38400 : Nat := 0x000F

def B57600 : Nat := 0x1001

def B115200 : Nat := 0x1002

def CRTSCTS : Nat := 0x80000000

/-- The `// datasize` switch on `format[0]` (j12dump.c lines 99-105): the
`cflags` bits OR-ed in, or `none` for the rejecting `default` case. -/
def dataBits (c : Char) : Option Nat :=
  if c = '5' then some CS5
  else if c = '6' then some CS6
  else if c = '7' then some CS7
  else if c = '8' then some CS8
  else none

/-- The `// parity` switch on `format[1]` (j12dump.c lines 108-113). The
`'O'` case sets `PARODD` and then falls through (no `break`) into the `'E'`
case, so odd parity sets both `PARODD` and `PARENB`. -/
def parityBits (c : Char) : Option Nat :=
  if c = 'N' then some 0
  else if c = 'O' then some (PARODD ||| PARENB)
  else if c = 'E' then some PARENB
  else none

/-- The `// stopbit` switch on `format[2]` (j12dump.c lines 116-120). -/
def stopBits (c : Char) : Option Nat :=
  if c = '1' then some 0
  else if c = '2' then some CSTOPB
  else none

/-- The `// baudrate` switch (j12dump.c lines 123-137): result is the new
`cflags` and the `speed` value. Named rates leave `speed = 0`; any other
baud clears `CBAUD`, sets `BOTHER` and passes the raw rate through
(`speed_t` is unsigned 32-bit, hence the `% 2^32`). This switch never
rejects. -/
def baudBits (baud : Int) (cflags : Nat) : Nat × Nat :=
  if baud = 115200 then (cflags ||| B115200, 0)
  else if baud = 57600 then (cflags ||| B57600, 0)
  else if baud = 38400 then (cflags ||| B38400, 0)
  else if baud = 19200 then (cflags ||| B19200, 0)
  else if baud = 9600 then (cflags ||| B9600, 0)
  else if baud = 4800 then (cflags ||| B4800, 0)
  else if baud = 2400 then (cflags ||| B2400, 0)
  else if baud = 300 then (cflags ||| B300, 0)
  else ((cflags &&& (0xFFFFFFFF ^^^ CBAUD)) ||| BOTHER, (baud % 4294967296).toNat)

/-- Result of `SerialInit`: the return code, the number of OS calls issued
(`ioctl(TCSETS2)`, `ioctl(TCGETS2)`, `tcflush` via `SerialFlush`), and the
`c_cflag` / `speed` values handed to the driver (`none` when rejected
before the first `ioctl`). -/
structure InitResult where
  ret : Int
  osCalls : Nat
  cflag : Option Nat
  speed : Option Nat
  deriving DecidableEq

/-- `SerialInit` (j12dump.c lines 85-165). `fdOpen` is `fd >= 0`;
`prevCflag` is `settings.c_cflag` as captured by `SerialOpen`; `format` is
the C string (`none` = NULL); `setOk`/`getOk` are the outcomes of the
`TCSETS2` and `TCGETS2` ioctls. All validation (NULL / length != 3 and the
three switches) happens on the local `cflags` variable before the first
`ioctl`, so every rejection path reports `osCalls = 0`. -/
def SerialInit (fdOpen : Bool) (prevCflag : Nat) (baud : Int)
    (format : Option (List Char)) (rtscts : Bool) (setOk getOk : Bool) :
    InitResult :=
  if !fdOpen then ⟨SERIAL_ERR_INIT, 0, none, none⟩
  else
    match format with
    | none => ⟨SERIAL_ERR_INIT, 0, none, none⟩
    | some f =>
      match f with
      | [c0, c1, c2] =>
        let cflags0 := (prevCflag % 4294967296) ||| CLOCAL ||| CREAD
        match dataBits c0 with
        | none => ⟨SERIAL_ERR_INIT, 0, none, none⟩
        | some db =>
          match parityBits c1 with
          | none => ⟨SERIAL_ERR_INIT, 0, none, none⟩
          | some pb =>
            match stopBits c2 with
            | none => ⟨SERIAL_ERR_INIT, 0, none, none⟩
            | some sb =>
              let bp := baudBits baud (cflags0 ||| db ||| pb ||| sb)
              let cf := if rtscts then bp.1 ||| CRTSCTS else bp.1
              if !setOk then ⟨SERIAL_ERR_INIT, 1, some cf, some bp.2⟩
              else if !getOk then ⟨SERIAL_ERR_INIT, 2, some cf, some bp.2⟩
              else ⟨SERIAL_OK, 3, some cf, some bp.2⟩
      | _ => ⟨SERIAL_ERR_INIT, 0, none, none⟩

/-! The protocol decoder: `ReadPedal`, `ReadButton` and the `switch` on the
command byte in `main` (j12dump.c lines 290-293). -/

/-- Decoded device events, in the spec's vocabulary; in the code each event
coincides with the state write it causes. -/
inductive DeviceEvent where
  | pedalReading (pedal b0 b1 : Nat)
  | buttonPressed (i : Nat)
  | buttonsCleared
  deriving DecidableEq

/-- The global mutable state of j12dump.c lines 23-24: the two 2-byte
expression-pedal slots `exp[2][2]` and the 12-entry button flag array
`btn[12]`. -/
structure DeviceState where
  exp0 : Nat × Nat
  exp1 : Nat × Nat
  btn : List Bool
  deriving DecidableEq

/-- Effect on a 2-byte pedal slot of `SerialReceiveBuffer` writing
`collected` into its buffer from position 0: the collected prefix
overwrites the slot in place, the rest is untouched. -/
def writeSlot (slot : Nat × Nat) : List Nat → Nat × Nat
  | [] => slot
  | [b0] => (b0, slot.2)
  | b0 :: b1 :: _ => (b0, b1)

/-- `ReadPedal` (j12dump.c lines 235-245): reads 2 bytes with timeout 0
into `exp[pedal]`. Returns the new state, the events emitted (one
`pedalReading` exactly when the read returned `SERIAL_OK`, which with a
2-byte request means both bytes arrived), and whether the non-fatal error
message was printed (`err != 0`). Bytes collected before a failure have
already been written into `exp[pedal]` by the time the error is reported.
`none` propagates oracle exhaustion. -/
def ReadPedal (pedal : Nat) (evs : List ReadEv) (s : DeviceState) :
    Option (DeviceState × List DeviceEvent × Bool) :=
  match SerialReceiveBuffer true 2 0 evs with
  | none => none
  | some r =>
    let slot' := writeSlot (if pedal = 0 then s.exp0 else s.exp1) r.collected
    some ((if pedal = 0 then { s with exp0 := slot' } else { s with exp1 := slot' }),
          (if r.ret = SERIAL_OK then [DeviceEvent.pedalReading pedal slot'.1 slot'.2] else []),
          (if r.ret = SERIAL_OK then false else true))

/-- The all-false button array produced by `memset(btn, 0, sizeof (btn))`
(j12dump.c lines 250 and 278). -/
def btnClearAll : List Bool := List.replicate 12 false

/-- `ReadButton` (j12dump.c lines 247-254): low nibble `0x0F` clears all
buttons via `memset`; any other value executes the unchecked store
`btn[button] = 1`. The store is defined only for `button < 12`
(`btn` has 12 entries); out of bounds it is undefined behavior in C,
modelled as `none`. -/
def ReadButton (button : Nat) (btn : List Bool) : Option (List Bool) :=
  if button = 0x0F then some btnClearAll
  else if button < btn.length then some (btn.set button true)
  else none

/-- One iteration of the `switch (cmd & 0xF0)` in `main` (j12dump.c lines
290-293), after the command byte `cmd` has been received: the `0xE0` case
calls `ReadPedal(cmd & 0x01)`, the `0xF0` case calls
`ReadButton(cmd & 0x0F)`, any other high nibble does nothing. Result:
new state, events emitted, whether a pedal read error was logged. -/
def decodeStep (cmd : Nat) (evs : List ReadEv) (s : DeviceState) :
    Option (DeviceState × List DeviceEvent × Bool) :=
  if cmd &&& 0xF0 = 0xE0 then
    ReadPedal (cmd &&& 0x01) evs s
  else if cmd &&& 0xF0 = 0xF0 then
    match ReadButton (cmd &&& 0x0F) s.btn with
    | none => none
    | some btn' =>
      some ({ s with btn := btn' },
            (if cmd &&& 0x0F = 0x0F then [DeviceEvent.buttonsCleared]
             else [DeviceEvent.buttonPressed (cmd &&& 0x0F)]),
            false)
  else
    some (s, [], false)

/-- The state after `main`'s `memset` initialisation (j12dump.c lines
278-279): both pedal slots zero, all buttons clear. -/
def initState : DeviceState := ⟨(0, 0), (0, 0), btnClearAll⟩

/-! Step equations for the two I/O loops (helper lemmas). -/

theorem recvLoop_rem_zero (t : Int) (evs : List ReadEv) (acc : List Nat) :
    recvLoop t evs 0 acc = some ⟨SERIAL_OK, acc.length, acc⟩ := by
  cases evs with
  | nil => rfl
  | cons e rest => cases e <;> rfl

theorem recvLoop_chunk (t : Int) (bs : List Nat) (rest : List ReadEv)
    (n : Nat) (acc : List Nat) :
    recvLoop t (ReadEv.chunk bs :: rest) (n + 1) acc =
      if (bs.take (n + 1)).isEmpty then
        some ⟨if t < 0 then SERIAL_OK else SERIAL_ERR_TIMEOUT, acc.length, acc⟩
      else
        recvLoop t rest (n + 1 - (bs.take (n + 1)).length) (acc ++ bs.take (n + 1)) := by
  rfl

theorem recvLoop_eintr (t : Int) (rest : List ReadEv) (n : Nat) (acc : List Nat) :
    recvLoop t (ReadEv.eintr :: rest) (n + 1) acc = recvLoop t rest (n + 1) acc := by
  rfl

theorem recvLoop_fail (t : Int) (rest : List ReadEv) (n : Nat) (acc : List Nat) :
    recvLoop t (ReadEv.fail :: rest) (n + 1) acc =
      some ⟨SERIAL_ERR_READ, acc.length, acc⟩ := by
  rfl

/-- On every return of the receive loop, `*len` is set to the number of
bytes collected, and that number never exceeds the bytes already collected
plus the remaining request. -/
theorem recvLoop_bounds (t : Int) :
    ∀ (evs : List ReadEv) (rem : Nat) (acc : List Nat) (r : RecvResult),
      recvLoop t evs rem acc = some r →
      r.lenOut = r.collected.length ∧ r.collected.length ≤ acc.length + rem := by
  intro evs
  induction evs with
  | nil =>
    intro rem acc r h
    cases rem with
    | zero =>
      rw [recvLoop_rem_zero] at h
      injection h with h
      subst h
      simp
    | succ n => exact absurd h (by simp [recvLoop])
  | cons e rest ih =>
    intro rem acc r h
    cases rem with
    | zero =>
      rw [recvLoop_rem_zero] at h
      injection h with h
      subst h
      simp
    | succ n =>
      cases e with
      | chunk bs =>
        rw [recvLoop_chunk] at h
        by_cases he : (bs.take (n + 1)).isEmpty
        · rw [if_pos he] at h
          injection h with h
          subst h
          simp
        · rw [if_neg he] at h
          have hlen : (bs.take (n + 1)).length ≤ n + 1 := by
            simp
          have := ih (n + 1 - (bs.take (n + 1)).length) (acc ++ bs.take (n + 1)) r h
          refine ⟨this.1, ?_⟩
          have h2 := this.2
          simp only [List.length_append] at h2
          omega
      | eintr =>
        rw [recvLoop_eintr] at h
        exact ih (n + 1) acc r h
      | fail =>
        rw [recvLoop_fail] at h
        injection h with h
        subst h
        simp

theorem sendLoop_rem_zero (evs : List WriteEv) (sent : Nat) :
    sendLoop evs 0 sent = some (SERIAL_OK, sent) := by
  cases evs with
  | nil => rfl
  | cons e rest => cases e <;> rfl

theorem sendLoop_wrote (n : Nat) (rest : List WriteEv) (m sent : Nat) :
    sendLoop (WriteEv.wrote n :: rest) (m + 1) sent =
      sendLoop rest (m + 1 - min n (m + 1)) (sent + min n (m + 1)) := by
  rfl

theorem sendLoop_eintr (rest : List WriteEv) (m sent : Nat) :
    sendLoop (WriteEv.eintr :: rest) (m + 1) sent = sendLoop rest (m + 1) sent := by
  rfl

theorem sendLoop_fail (rest : List WriteEv) (m sent : Nat) :
    sendLoop (WriteEv.fail :: rest) (m + 1) sent = some (SERIAL_ERR_WRITE, sent) := by
  rfl

/-- A `SERIAL_OK` return of the send loop accounts for every byte: the
total written equals the bytes already sent plus the whole remainder. -/
theorem sendLoop_ok_total :
    ∀ (evs : List WriteEv) (rem sent : Nat) (p : Int × Nat),
      sendLoop evs rem sent = some p → p.1 = SERIAL_OK → p.2 = sent + rem := by
  intro evs
  induction evs with
  | nil =>
    intro rem sent p h hok
    cases rem with
    | zero =>
      rw [sendLoop_rem_zero] at h
      injection h with h
      subst h
      simp
    | succ m => exact absurd h (by simp [sendLoop])
  | cons e rest ih =>
    intro rem sent p h hok
    cases rem with
    | zero =>
      rw [sendLoop_rem_zero] at h
      injection h with h
      subst h
      simp
    | succ m =>
      cases e with
      | wrote n =>
        rw [sendLoop_wrote] at h
        have hw : min n (m + 1) ≤ m + 1 := Nat.min_le_right n (m + 1)
        have := ih (m + 1 - min n (m + 1)) (sent + min n (m + 1)) p h hok
        omega
      | eintr =>
        rw [sendLoop_eintr] at h
        exact ih (m + 1) sent p h hok
      | fail =>
        rw [sendLoop_fail] at h
        injection h with h
        subst h
        exact absurd hok (by simp [SERIAL_ERR_WRITE, SERIAL_OK])

/-! Claim theorems. -/

/-- C1 (counterexample): the claim that every `ms >= 0` is converted to
`ceil(ms/100)` deciseconds with `ms = 0` giving a non-blocking read
(`VMIN = 0`) is false on the code: `SerialSetTimeout 0` sets `VMIN = 1`
(block until at least one byte arrives — the source comments call `0`
"infinite"), and at `ms = 25600` the 8-bit `cc_t` wraps, storing `0`
instead of `ceil(25600/100) = 256`. -/
theorem setTimeout_claim_cex :
    (SerialSetTimeout 0).vmin ≠ 0 ∧
    (SerialSetTimeout 25600).vtime ≠ (25600 + 99) / 100 := by
  decide

/-- C1 (amended): for `ms >= 0`, `SerialSetTimeout` stores
`VTIME = ceil(ms/100) mod 256` (exactly `ceil(ms/100)` whenever
`ms <= 25500`); `ms = 0` yields `VMIN = 1, VTIME = 0`, a read that blocks
until at least one byte is available; every `ms > 0` yields `VMIN = 0`;
the non-blocking configuration `VMIN = 0, VTIME = 0` is selected by
negative `ms`. -/
theorem setTimeout_conversion (ms : Int) :
    (0 ≤ ms → (SerialSetTimeout ms).vtime = ((ms.toNat + 99) / 100) % 256) ∧
    (0 ≤ ms → ms ≤ 25500 → (SerialSetTimeout ms).vtime = (ms.toNat + 99) / 100) ∧
    (SerialSetTimeout 0 = ⟨1, 0⟩) ∧
    (0 < ms → (SerialSetTimeout ms).vmin = 0) ∧
    (ms < 0 → SerialSetTimeout ms = ⟨0, 0⟩) := by
  refine ⟨?_, ?_, by decide, ?_, ?_⟩
  · intro h
    simp only [SerialSetTimeout, if_neg (not_lt.mpr h)]
    omega
  · intro h h25
    simp only [SerialSetTimeout, if_neg (not_lt.mpr h)]
    omega
  · intro h
    have h0 : ¬ ms = 0 := by omega
    have h1 : ¬ ms < 0 := by omega
    simp [SerialSetTimeout, h0, h1]
  · intro h
    simp [SerialSetTimeout, h]

/-- C1 (witness): the amended conversion theorem evaluated at `ms = 150`
(two deciseconds) and at `ms = -1`. -/
theorem setTimeout_conversion_witness :
    (SerialSetTimeout 150).vtime = (150 + 99) / 100 ∧
    (SerialSetTimeout 150).vmin = 0 ∧
    SerialSetTimeout (-1) = ⟨0, 0⟩ := by
  refine ⟨?_, ?_, ?_⟩
  · exact (setTimeout_conversion 150).2.1 (by decide) (by decide)
  · exact (setTimeout_conversion 150).2.2.2.1 (by decide)
  · exact (setTimeout_conversion (-1)).2.2.2.2 (by decide)

/-- C4: a zero-byte driver read terminates the receive loop at once:
with a negative timeout the call returns `SERIAL_OK` reporting the bytes
collected so far (possibly zero), with a non-negative timeout it returns
`SERIAL_ERR_TIMEOUT`, again reporting the bytes collected so far. The two
`SerialReceiveBuffer` conjuncts instantiate this for a bounded timeout of
100 ms and for the negative-timeout convention when no data at all
arrives. -/
theorem receive_zero_read_terminates (t : Int) (rest : List ReadEv)
    (rem len : Nat) (acc : List Nat) :
    (0 < rem → recvLoop t (ReadEv.chunk [] :: rest) rem acc =
      some ⟨if t < 0 then SERIAL_OK else SERIAL_ERR_TIMEOUT, acc.length, acc⟩) ∧
    (0 < len → SerialReceiveBuffer true len 100 (ReadEv.chunk [] :: rest) =
      some ⟨SERIAL_ERR_TIMEOUT, 0, []⟩) ∧
    (0 < len → SerialReceiveBuffer true len (-1) (ReadEv.chunk [] :: rest) =
      some ⟨SERIAL_OK, 0, []⟩) := by
  refine ⟨?_, ?_, ?_⟩
  · intro h
    cases rem with
    | zero => omega
    | succ n => simp [recvLoop_chunk]
  · intro h
    cases len with
    | zero => omega
    | succ n =>
      simp only [SerialReceiveBuffer, if_pos rfl, recvLoop_chunk]
      norm_num
  · intro h
    cases len with
    | zero => omega
    | succ n =>
      simp only [SerialReceiveBuffer, if_pos rfl, recvLoop_chunk]
      norm_num

/-- C4 (witness): the zero-read termination theorem evaluated with one
outstanding byte, an empty fill and timeouts 0 and −1. -/
theorem receive_zero_read_terminates_witness :
    recvLoop 0 [ReadEv.chunk []] 1 [] = some ⟨SERIAL_ERR_TIMEOUT, 0, []⟩ ∧
    SerialReceiveBuffer true 1 (-1) [ReadEv.chunk []] = some ⟨SERIAL_OK, 0, []⟩ := by
  constructor
  · simpa using (receive_zero_read_terminates 0 [] 1 1 []).1 (by decide)
  · exact (receive_zero_read_terminates 0 [] 1 1 []).2.2 (by decide)

/-- C5: on an open port, every return of `SerialReceiveBuffer` stores into
`*len` exactly the number of bytes it collected, and that number never
exceeds the requested length; an `EINTR` interruption retries the read
with the same remaining length and the same accumulated bytes (no loss of
progress, continuing at the current fill position). -/
theorem receive_bounds_and_eintr (len : Nat) (t : Int) (evs rest : List ReadEv)
    (rem : Nat) (acc : List Nat) (r : RecvResult) :
    (SerialReceiveBuffer true len t evs = some r →
      r.lenOut = r.collected.length ∧ r.lenOut ≤ len) ∧
    (0 < rem → recvLoop t (ReadEv.eintr :: rest) rem acc = recvLoop t rest rem acc) := by
  constructor
  · intro h
    have hb := recvLoop_bounds t evs len [] r (by simpa [SerialReceiveBuffer] using h)
    obtain ⟨h1, h2⟩ := hb
    simp only [List.length_nil] at h2
    exact ⟨h1, by omega⟩
  · intro h
    cases rem with
    | zero => omega
    | succ n => exact recvLoop_eintr t rest n acc

/-- C5 (witness): the bound theorem applied to a 2-byte request that got
one byte and then timed out, and the EINTR step applied concretely. -/
theorem receive_bounds_and_eintr_witness :
    ((⟨SERIAL_ERR_TIMEOUT, 1, [9]⟩ : RecvResult).lenOut =
        (⟨SERIAL_ERR_TIMEOUT, 1, [9]⟩ : RecvResult).collected.length ∧
      (⟨SERIAL_ERR_TIMEOUT, 1, [9]⟩ : RecvResult).lenOut ≤ 2) ∧
    recvLoop 0 [ReadEv.eintr, ReadEv.chunk [5]] 1 [] =
      recvLoop 0 [ReadEv.chunk [5]] 1 [] := by
  constructor
  · exact (receive_bounds_and_eintr 2 0 [ReadEv.chunk [9], ReadEv.chunk []]
      [] 1 [] ⟨SERIAL_ERR_TIMEOUT, 1, [9]⟩).1 (by decide)
  · exact (receive_bounds_and_eintr 2 0 [] [ReadEv.chunk [5]]
      1 [] ⟨SERIAL_ERR_TIMEOUT, 1, [9]⟩).2 (by decide)

/-- C6: `SerialSendBuffer` is all-or-error: a `SERIAL_OK` return means the
whole buffer was written (the loop keeps writing the unsent remainder);
an `EINTR` interruption retries the very same remainder with no bytes
counted twice or dropped; any other write failure aborts immediately with
`SERIAL_ERR_WRITE`. -/
theorem send_all_or_error (len : Nat) (evs rest : List WriteEv)
    (rem sent : Nat) (p : Int × Nat) :
    (SerialSendBuffer true len evs = some p → p.1 = SERIAL_OK → p.2 = len) ∧
    (0 < rem → sendLoop (WriteEv.eintr :: rest) rem sent = sendLoop rest rem sent) ∧
    (0 < rem → sendLoop (WriteEv.fail :: rest) rem sent = some (SERIAL_ERR_WRITE, sent)) := by
  refine ⟨?_, ?_, ?_⟩
  · intro h hok
    have := sendLoop_ok_total evs len 0 p (by simpa [SerialSendBuffer] using h) hok
    omega
  · intro h
    cases rem with
    | zero => omega
    | succ m => exact sendLoop_eintr rest m sent
  · intro h
    cases rem with
    | zero => omega
    | succ m => exact sendLoop_fail rest m sent

/-- C6 (witness): the all-or-error theorem applied to a 1-byte buffer
written in full, and to an immediate non-EINTR failure. -/
theorem send_all_or_error_witness :
    ((SERIAL_OK, 1) : Int × Nat).2 = 1 ∧
    sendLoop [WriteEv.fail] 1 0 = some (SERIAL_ERR_WRITE, 0) := by
  constructor
  · exact (send_all_or_error 1 [WriteEv.wrote 1] [] 1 0 (SERIAL_OK, 1)).1 rfl rfl
  · exact (send_all_or_error 1 [WriteEv.wrote 1] [] 1 0 (SERIAL_OK, 1)).2.2 (by decide)

/-- C2 (code-bug exhibit): for button indices 12, 13 and 14 (command bytes
`0xFC`-`0xFE`) the decoder does NOT reject the index — `ReadButton`
executes the unchecked store `btn[button] = 1` past the end of the
12-entry array, which is undefined behavior (modelled as `none`). Index
11 by contrast is an in-bounds store. -/
theorem readButton_oob_write :
    ReadButton 12 btnClearAll = none ∧
    ReadButton 13 btnClearAll = none ∧
    ReadButton 14 btnClearAll = none ∧
    decodeStep 0xFC [] initState = none ∧
    decodeStep 0xFD [] initState = none ∧
    decodeStep 0xFE [] initState = none ∧
    ReadButton 11 btnClearAll = some (btnClearAll.set 11 true) := by
  decide

/-- C3 (counterexample): the claim that a failed pedal-payload read leaves
the stored pedal state unchanged is false: from the freshly initialised
state, command `0xE0` followed by one payload byte `0x55` and then a
zero-byte read (timeout) reports an error (flag `true`) and emits no
event, yet pedal 0's slot has changed from `(0, 0)` to `(0x55, 0)` —
`SerialReceiveBuffer` had already written the byte into `exp[0]`. -/
theorem readPedal_error_overwrites_cex :
    decodeStep 0xE0 [ReadEv.chunk [0x55], ReadEv.chunk []] initState =
      some (⟨(0x55, 0), (0, 0), btnClearAll⟩, [], true) ∧
    (⟨(0x55, 0), (0, 0), btnClearAll⟩ : DeviceState) ≠ initState := by
  decide

/-- C3 (amended): when the 2-byte pedal payload read fails after a `0xE_`
command byte, no event is emitted, the error is logged non-fatally (the
flag is `true`) and decoding returns to await the next command byte — but
the pedal slot is overwritten in place by however many payload bytes (0,
1 or 2) arrived before the failure; it is unchanged exactly when no byte
was collected. -/
theorem readPedal_error_behavior (pedal : Nat) (evs : List ReadEv)
    (s : DeviceState) (r : RecvResult)
    (h : SerialReceiveBuffer true 2 0 evs = some r)
    (herr : r.ret ≠ SERIAL_OK) :
    ReadPedal pedal evs s =
      some ((if pedal = 0 then { s with exp0 := writeSlot s.exp0 r.collected }
             else { s with exp1 := writeSlot s.exp1 r.collected }),
            [], true) ∧
    (r.collected = [] → ReadPedal pedal evs s = some (s, [], true)) := by
  constructor
  · by_cases hp : pedal = 0 <;> simp [ReadPedal, h, hp, herr]
  · intro hc
    by_cases hp : pedal = 0 <;> simp [ReadPedal, h, hp, herr, hc, writeSlot]

/-- C3 (witness): the amended theorem applied to a payload read that got
nothing at all before timing out — the state is returned unchanged, no
event, error logged. -/
theorem readPedal_error_behavior_witness :
    ReadPedal 0 [ReadEv.chunk []] initState = some (initState, [], true) := by
  simpa using (readPedal_error_behavior 0 [ReadEv.chunk []] initState
    ⟨SERIAL_ERR_TIMEOUT, 0, []⟩ (by decide) (by decide)).2 rfl

/-- C7: decoding command byte `0xE0` whose 2-byte payload `[0x12, 0x34]`
arrives in full yields exactly one `pedalReading` event for pedal 0,
overwrites pedal 0's slot with `(0x12, 0x34)`, and leaves pedal 1's slot
and all 12 button flags untouched (the state is updated only in its
`exp0` field), with no error logged. -/
theorem decode_pedal_frame (s : DeviceState) :
    decodeStep 0xE0 [ReadEv.chunk [0x12, 0x34]] s =
      some ({ s with exp0 := (0x12, 0x34) },
            [DeviceEvent.pedalReading 0 0x12 0x34], false) := by
  rfl

/-- C7 (witness): the pedal-frame theorem evaluated from the freshly
initialised state. -/
theorem decode_pedal_frame_witness :
    decodeStep 0xE0 [ReadEv.chunk [0x12, 0x34]] initState =
      some (⟨(0x12, 0x34), (0, 0), btnClearAll⟩,
            [DeviceEvent.pedalReading 0 0x12 0x34], false) :=
  decode_pedal_frame initState

/-- C8: decoding command byte `0xF3` sets button 3 to `true` and leaves
every other flag unchanged; decoding `0xFF` afterwards (low nibble `0x0F`,
the clear sentinel) resets all 12 flags to `false`, including button 3. -/
theorem decode_button_set_and_clear (s : DeviceState) (h : s.btn.length = 12) :
    decodeStep 0xF3 [] s =
      some ({ s with btn := s.btn.set 3 true },
            [DeviceEvent.buttonPressed 3], false) ∧
    (s.btn.set 3 true)[3]? = some true ∧
    (∀ i, i ≠ 3 → (s.btn.set 3 true)[i]? = s.btn[i]?) ∧
    decodeStep 0xFF [] { s with btn := s.btn.set 3 true } =
      some ({ s with btn := btnClearAll },
            [DeviceEvent.buttonsCleared], false) ∧
    (∀ i, i < 12 → btnClearAll[i]? = some false) := by
  refine ⟨?_, ?_, ?_, ?_, ?_⟩
  · simp [decodeStep, ReadButton, h,
      (by decide : ¬ ((0xF3 : Nat) &&& 0xF0 = 0xE0)),
      (by decide : (0xF3 : Nat) &&& 0xF0 = 0xF0),
      (by decide : (0xF3 : Nat) &&& 0x0F = 3)]
  · exact List.getElem?_set_eq_of_lt true (by omega)
  · intro i hi
    exact List.getElem?_set_ne (by omega)
  · simp [decodeStep, ReadButton,
      (by decide : ¬ ((0xFF : Nat) &&& 0xF0 = 0xE0)),
      (by decide : (0xFF : Nat) &&& 0xF0 = 0xF0),
      (by decide : (0xFF : Nat) &&& 0x0F = 0x0F)]
  · intro i hi
    show (List.replicate 12 false)[i]? = some false
    rw [List.getElem?_replicate]
    simp [hi]

/-- C8 (witness): the button theorem evaluated from the freshly
initialised state. -/
theorem decode_button_set_and_clear_witness :
    decodeStep 0xF3 [] initState =
      some (⟨(0, 0), (0, 0), btnClearAll.set 3 true⟩,
            [DeviceEvent.buttonPressed 3], false) ∧
    btnClearAll[5]? = some false := by
  constructor
  · exact (decode_button_set_and_clear initState rfl).1
  · exact (decode_button_set_and_clear initState rfl).2.2.2.2 5 (by decide)

/-! Helper lemmas for the `SerialInit` format switches. -/

theorem dataBits_eq_none (c : Char)
    (h : ¬(c = '5' ∨ c = '6' ∨ c = '7' ∨ c = '8')) : dataBits c = none := by
  push_neg at h
  simp [dataBits, h.1, h.2.1, h.2.2.1, h.2.2.2]

theorem parityBits_eq_none (c : Char)
    (h : ¬(c = 'N' ∨ c = 'O' ∨ c = 'E')) : parityBits c = none := by
  push_neg at h
  simp [parityBits, h.1, h.2.1, h.2.2]

theorem stopBits_eq_none (c : Char)
    (h : ¬(c = '1' ∨ c = '2')) : stopBits c = none := by
  push_neg at h
  simp [stopBits, h.1, h.2]

/-- C9: with the port open and a cooperative driver, `SerialInit` returns
`SERIAL_OK` for every 3-character format whose data character is one of
`5678`, parity one of `NOE` and stop one of `12`; and for any format
outside those sets — a NULL pointer, a string of a length other than 3, or
a 3-character string with an unrecognised character — it returns
`SERIAL_ERR_INIT` having issued zero OS calls, i.e. before anything could
mutate the driver configuration. -/
theorem serialInit_format_validation (prev : Nat) (baud : Int)
    (rtscts : Bool) (c0 c1 c2 : Char) (format : Option (List Char))
    (fdo setOk getOk : Bool) :
    ((c0 = '5' ∨ c0 = '6' ∨ c0 = '7' ∨ c0 = '8') →
     (c1 = 'N' ∨ c1 = 'O' ∨ c1 = 'E') →
     (c2 = '1' ∨ c2 = '2') →
      (SerialInit true prev baud (some [c0, c1, c2]) rtscts true true).ret =
        SERIAL_OK) ∧
    ((∀ d p q, format = some [d, p, q] →
        ¬(d = '5' ∨ d = '6' ∨ d = '7' ∨ d = '8') ∨
        ¬(p = 'N' ∨ p = 'O' ∨ p = 'E') ∨
        ¬(q = '1' ∨ q = '2')) →
      (SerialInit fdo prev baud format rtscts setOk getOk).ret = SERIAL_ERR_INIT ∧
      (SerialInit fdo prev baud format rtscts setOk getOk).osCalls = 0) := by
  constructor
  · intro h0 h1 h2
    rcases h0 with rfl | rfl | rfl | rfl <;>
      rcases h1 with rfl | rfl | rfl <;>
        rcases h2 with rfl | rfl <;>
          simp [SerialInit, dataBits, parityBits, stopBits]
  · intro hinv
    cases fdo with
    | false => exact ⟨rfl, rfl⟩
    | true =>
      cases format with
      | none => exact ⟨rfl, rfl⟩
      | some f =>
        match f with
        | [] => exact ⟨rfl, rfl⟩
        | [_] => exact ⟨rfl, rfl⟩
        | [_, _] => exact ⟨rfl, rfl⟩
        | _ :: _ :: _ :: _ :: _ => exact ⟨rfl, rfl⟩
        | [d, p, q] =>
          rcases hinv d p q rfl with hd | hp | hq
          · simp [SerialInit, dataBits_eq_none d hd]
          · cases hdb : dataBits d with
            | none => simp [SerialInit, hdb]
            | some db => simp [SerialInit, hdb, parityBits_eq_none p hp]
          · cases hdb : dataBits d with
            | none => simp [SerialInit, hdb]
            | some db =>
              cases hpb : parityBits p with
              | none => simp [SerialInit, hdb, hpb]
              | some pb => simp [SerialInit, hdb, hpb, stopBits_eq_none q hq]

/-- C9 (witness): the validation theorem applied to the program's own
format `"8N1"` (accepted) and to `"9N1"` (rejected with zero OS calls). -/
theorem serialInit_format_validation_witness :
    (SerialInit true 0 10416 (some ['8', 'N', '1']) false true true).ret =
      SERIAL_OK ∧
    (SerialInit true 0 10416 (some ['9', 'N', '1']) false true true).ret =
      SERIAL_ERR_INIT ∧
    (SerialInit true 0 10416 (some ['9', 'N', '1']) false true true).osCalls = 0 := by
  refine ⟨?_, ?_, ?_⟩
  · exact (serialInit_format_validation 0 10416 false '8' 'N' '1'
      (some ['8', 'N', '1']) true true true).1
      (Or.inr (Or.inr (Or.inr rfl))) (Or.inl rfl) (Or.inl rfl)
  · exact ((serialInit_format_validation 0 10416 false '8' 'N' '1'
      (some ['9', 'N', '1']) true true true).2
      (by rintro d p q hh
          injection hh with hh
          injection hh with e1 hh
          injection hh with e2 hh
          injection hh with e3 hh
          subst e1; subst e2; subst e3
          left; decide)).1
  · exact ((serialInit_format_validation 0 10416 false '8' 'N' '1'
      (some ['9', 'N', '1']) true true true).2
      (by rintro d p q hh
          injection hh with hh
          injection hh with e1 hh
          injection hh with e2 hh
          injection hh with e3 hh
          subst e1; subst e2; subst e3
          left; decide)).2

/-- C10: with the port never opened (`fd = -1`), each of `SerialFlush`,
`SerialDrain`, `SerialInit`, `SerialSendBuffer` and `SerialReceiveBuffer`
returns its negative error code having issued no device I/O at all (the
syscall counters are 0 and the read/write oracles are never consulted —
the results below hold for every oracle); in particular
`SerialReceiveBuffer` returns `SERIAL_ERR_READ` and leaves the caller's
`*len` unmodified (`lenOut = len`). -/
theorem closed_port_guards (len : Nat) (t : Int) (revs : List ReadEv)
    (wevs : List WriteEv) (prev : Nat) (baud : Int)
    (fmt : Option (List Char)) (rtscts setOk getOk : Bool) :
    SerialFlush false = (SERIAL_ERR, 0) ∧
    SerialDrain false = (SERIAL_ERR, 0) ∧
    SerialInit false prev baud fmt rtscts setOk getOk =
      ⟨SERIAL_ERR_INIT, 0, none, none⟩ ∧
    SerialSendBuffer false len wevs = some (SERIAL_ERR_WRITE, 0) ∧
    SerialReceiveBuffer false len t revs = some ⟨SERIAL_ERR_READ, len, []⟩ ∧
    SERIAL_ERR < 0 ∧ SERIAL_ERR_INIT < 0 ∧ SERIAL_ERR_WRITE < 0 ∧
    SERIAL_ERR_READ < 0 := by
  exact ⟨rfl, rfl, rfl, rfl, rfl, by decide, by decide, by decide, by decide⟩

/-- C10 (witness): the closed-port theorem at concrete arguments. -/
theorem closed_port_guards_witness :
    SerialFlush false = (SERIAL_ERR, 0) ∧
    SerialDrain false = (SERIAL_ERR, 0) ∧
    SerialInit false 0 10416 none false false false =
      ⟨SERIAL_ERR_INIT, 0, none, none⟩ ∧
    SerialSendBuffer false 1 [] = some (SERIAL_ERR_WRITE, 0) ∧
    SerialReceiveBuffer false 1 0 [] = some ⟨SERIAL_ERR_READ, 1, []⟩ ∧
    SERIAL_ERR < 0 ∧ SERIAL_ERR_INIT < 0 ∧ SERIAL_ERR_WRITE < 0 ∧
    SERIAL_ERR_READ < 0 :=
  closed_port_guards 1 0 [] [] 0 10416 none false false false

end J12dump

